import Mathlib

/-!
Verification of the knmi weather integration (coordinator, api client,
derived-value resolver tables) as a shallow embedding.

Conventions of the embedding:
* Wall-clock instants are modelled as integer epoch seconds.
* Weather payload values are JSON strings (as returned by the upstream API);
  a payload is an association list with the dict's insertion order.
* Python `float` is modelled by `PyFloat`, an exact rational kept in
  lowest terms.  Every operation the claims exercise (truncation with
  `int(...)`, midpoints of integers, comparisons against the range
  tables) agrees with binary floating point at the inputs involved.
* Python exceptions are modelled with `Except`; an except-clause is a
  `match` on the error constructor.
* String scanning is done on character lists so that every definition
  reduces inside the kernel.
-/

namespace Knmi

/-! ## Exact rationals that reduce in the kernel -/

/-- Euclid's algorithm with explicit fuel (structural recursion). -/
def natGcdFuel : Nat → Nat → Nat → Nat
  | 0, a, _ => a
  | fuel + 1, a, b => if b = 0 then a else natGcdFuel fuel b (a % b)

/-- Greatest common divisor; `b + 1` steps of Euclid always suffice. -/
def natGcd (a b : Nat) : Nat := natGcdFuel (b + 1) a b

/-- A Python float value, as the exact rational `num / den`; always built
through `pfMk`, so the representation is in lowest terms with a positive
denominator and equality is structural. -/
structure PyFloat where
  num : Int
  den : Nat
deriving DecidableEq, Repr

/-- Build a `PyFloat` from a numerator and a positive denominator,
reducing to lowest terms. -/
def pfMk (n : Int) (d : Nat) : PyFloat :=
  if d = 0 then ⟨0, 1⟩
  else
    let g := natGcd n.natAbs d
    ⟨n.tdiv (g : Int), d / g⟩

/-- The float an integer denotes. -/
def pfOfInt (n : Int) : PyFloat := ⟨n, 1⟩

/-- Addition. -/
def pfAdd (a b : PyFloat) : PyFloat :=
  pfMk (a.num * (b.den : Int) + b.num * (a.den : Int)) (a.den * b.den)

/-- Subtraction. -/
def pfSub (a b : PyFloat) : PyFloat :=
  pfMk (a.num * (b.den : Int) - b.num * (a.den : Int)) (a.den * b.den)

/-- Negation. -/
def pfNeg (a : PyFloat) : PyFloat := ⟨-a.num, a.den⟩

/-- Division by a positive natural number. -/
def pfDivNat (a : PyFloat) (k : Nat) : PyFloat := pfMk a.num (a.den * k)

/-- Strict order, by cross multiplication (denominators are positive). -/
def pfLt (a b : PyFloat) : Bool :=
  a.num * (b.den : Int) < b.num * (a.den : Int)

/-- Python `int(x)` on a float: truncation toward zero. -/
def pyTrunc (q : PyFloat) : Int := Int.tdiv q.num (q.den : Int)

/-- Floor of a float. -/
def pfFloor (q : PyFloat) : Int := Int.fdiv q.num (q.den : Int)

/-- Python `round(x)` on a float: nearest integer, ties to even. -/
def pyRound (q : PyFloat) : Int :=
  let f := pfFloor q
  let frac := pfSub q (pfOfInt f)
  if pfLt (pfMk 1 2) frac then f + 1
  else if pfLt frac (pfMk 1 2) then f
  else if f % 2 = 0 then f else f + 1

/-! ## Python string primitives over character lists -/

/-- Digits to the natural number they denote (base 10). -/
def digitsToNat (cs : List Char) : Nat :=
  cs.foldl (fun a c => a * 10 + (c.toNat - 48)) 0

/-- Strip leading and trailing whitespace (Python `str.strip()`, which
`int(...)` and `float(...)` apply to their argument). -/
def stripWS (cs : List Char) : List Char :=
  ((cs.dropWhile Char.isWhitespace).reverse.dropWhile Char.isWhitespace).reverse

/-- Split an optional leading sign from a character list. -/
def splitSign : List Char → Bool × List Char
  | '-' :: r => (true, r)
  | '+' :: r => (false, r)
  | cs => (false, cs)

/-- Whether the text starts with the pattern. -/
def leadsWith : List Char → List Char → Bool
  | [], _ => true
  | _ :: _, [] => false
  | a :: as, b :: bs => a == b && leadsWith as bs

/-- Whether the pattern occurs in the text (Python `pat in s`). -/
def containsChars (pat : List Char) : List Char → Bool
  | [] => pat.isEmpty
  | c :: cs => leadsWith pat (c :: cs) || containsChars pat cs

/-- Python `pat in s` substring test on strings. -/
def substrOf (pat s : String) : Bool :=
  containsChars pat.toList s.toList

/-- Python `s.split(sep)` for a one-character separator. -/
def splitOnChar (sep : Char) : List Char → List (List Char)
  | [] => [[]]
  | c :: cs =>
    if c = sep then [] :: splitOnChar sep cs
    else
      match splitOnChar sep cs with
      | [] => [[c]]
      | h :: t => (c :: h) :: t

/-- Python `int(s)` on a string: surrounding whitespace stripped, optional
sign, one or more digits; anything else raises ValueError (here: `none`). -/
def pyIntChars? (cs : List Char) : Option Int :=
  let (neg, ds) := splitSign (stripWS cs)
  if ds.isEmpty then none
  else if ds.all Char.isDigit then
    some (if neg then -(digitsToNat ds : Int) else (digitsToNat ds : Int))
  else none

/-- Python `int(s)` on a string. -/
def pyInt? (s : String) : Option Int := pyIntChars? s.toList

/-- Python `float(s)` on a decimal string: optional sign, digits with at
most one decimal point, at least one digit in total.  The value is kept
exact. -/
def pyFloat? (s : String) : Option PyFloat :=
  let (neg, body) := splitSign (stripWS s.toList)
  let intPart := body.takeWhile (fun c => c ≠ '.')
  let rest := body.dropWhile (fun c => c ≠ '.')
  let mag? : Option PyFloat :=
    match rest with
    | [] =>
      if intPart.isEmpty then none
      else if intPart.all Char.isDigit then some (pfOfInt (digitsToNat intPart : Int))
      else none
    | _ :: frac =>
      if intPart.isEmpty && frac.isEmpty then none
      else if intPart.all Char.isDigit && frac.all Char.isDigit then
        some (pfMk ((digitsToNat intPart : Int) * (10 ^ frac.length : Nat)
          + (digitsToNat frac : Int)) (10 ^ frac.length))
      else none
  mag?.map (fun m => if neg then pfNeg m else m)

/-- First value bound to `key` (Python dict lookup on an assoc list). -/
def lookupAssoc (data : List (String × String)) (key : String) : Option String :=
  (data.find? (fun e => e.1 = key)).map (fun e => e.2)

/-! ## const.py — range tables (Derived-Value Resolver)

Each table keeps the source dict's insertion order.  The long Dutch
`description` texts (and the Beaufort `uitwerking` texts) are never
consulted by any resolver, only `short_description` / `barometer` /
`benaming` are; the unused prose fields are omitted from the embedding. -/

def DATA_REFRESH_INTERVAL : Int := 600

/-- TEMPERATURE_MAP: (range lo, range hi, short_description). -/
def TEMPERATURE_MAP : List (Int × Int × String) :=
  [(-30, -20, "Extreem koud"),
   (-20, -10, "Zeer koud"),
   (-10, 0, "Erg koud"),
   (0, 10, "Koud"),
   (5, 10, "Koel tot milde kou"),
   (10, 15, "Fris"),
   (15, 20, "Aangenaam"),
   (20, 25, "Warm"),
   (25, 30, "Warm tot heet"),
   (30, 35, "Heet"),
   (35, 40, "Erg heet"),
   (40, 50, "Zeer heet"),
   (50, 100, "Extreem heet")]

/-- AIR_PRESSURE_MAP: (range lo, range hi, short_description, barometer). -/
def AIR_PRESSURE_MAP : List (Int × Int × String × String) :=
  [(900, 940, "Extreem laag", "Orkaan"),
   (940, 970, "Zeer laag", "Stormachtig"),
   (970, 990, "Laag", "Regenachtig"),
   (990, 1010, "Matig laag", "Veranderlijk"),
   (1010, 1030, "Stabiel", "Mooi weer"),
   (1030, 1050, "Hoog", "Droog"),
   (1050, 1100, "Zeer hoog", "Zeer droog"),
   (1100, 1200, "Extreem hoog", "Uitzonderlijk droog")]

/-- One WIND_FORCE_MAP entry (prose `uitwerking` field omitted, unused). -/
structure WindForceInfo where
  windsnelheid_kmh : PyFloat
  windsnelheid_ms : PyFloat
  benaming : String
deriving DecidableEq, Repr

/-- WIND_FORCE_MAP: Beaufort force 0-12 to its record. -/
def WIND_FORCE_MAP : List (Int × WindForceInfo) :=
  [(0, ⟨pfOfInt 0, pfOfInt 0, "Stil"⟩),
   (1, ⟨pfOfInt 1, pfMk 3 10, "Zwak"⟩),
   (2, ⟨pfOfInt 6, pfMk 16 10, "Zwak"⟩),
   (3, ⟨pfOfInt 12, pfMk 34 10, "Matig"⟩),
   (4, ⟨pfOfInt 20, pfMk 55 10, "Matig"⟩),
   (5, ⟨pfOfInt 29, pfMk 80 10, "Vrij krachtig"⟩),
   (6, ⟨pfOfInt 39, pfMk 108 10, "Krachtig"⟩),
   (7, ⟨pfOfInt 50, pfMk 139 10, "Hard"⟩),
   (8, ⟨pfOfInt 62, pfMk 172 10, "Stormachtig"⟩),
   (9, ⟨pfOfInt 75, pfMk 208 10, "Storm"⟩),
   (10, ⟨pfOfInt 89, pfMk 245 10, "Zware storm"⟩),
   (11, ⟨pfOfInt 103, pfMk 285 10, "Zeer zware storm"⟩),
   (12, ⟨pfOfInt 117, pfMk 326 10, "Orkaan"⟩)]

/-- HUMIDITY_MAP: (range lo, range hi, short_description). -/
def HUMIDITY_MAP : List (Int × Int × String) :=
  [(0, 10, "Zeer laag"),
   (10, 30, "Erg laag"),
   (30, 40, "Laag"),
   (40, 60, "Comfortabel"),
   (60, 70, "Hoog"),
   (70, 90, "Erg hoog"),
   (90, 100, "Zeer hoog")]

/-- VISIBILITY_MAP: (range lo, range hi, short_description). -/
def VISIBILITY_MAP : List (Int × Int × String) :=
  [(0, 1, "Zeer slecht"),
   (1, 3, "Slecht"),
   (3, 5, "Matig"),
   (5, 10, "Goed"),
   (10, 50, "Zeer goed")]

/-- WIND_DIRECTIONS_ICON_MAP: degrees to mdi icon name. -/
def WIND_DIRECTIONS_ICON_MAP : List (Int × String) :=
  [(0, "arrow-down-thick"),
   (45, "arrow-bottom-left-thick"),
   (90, "arrow-left-thick"),
   (135, "arrow-top-left-thick"),
   (180, "arrow-up-thick"),
   (225, "arrow-top-right-thick"),
   (270, "arrow-right-thick"),
   (315, "arrow-bottom-right-thick")]

/-! ## entity.py — resolver lookups -/

/-- entity.py get_temperature_description: first table row with
`lo <= int(temperature) <= hi` (both bounds inclusive), else None. -/
def get_temperature_description (temperature : PyFloat) : Option String :=
  let t := pyTrunc temperature
  (TEMPERATURE_MAP.find? (fun e => decide (e.1 ≤ t) && decide (t ≤ e.2.1))).map
    (fun e => e.2.2)

/-- entity.py get_windforce_description: exact dict lookup by force. -/
def get_windforce_description (windforce : Int) : Option WindForceInfo :=
  (WIND_FORCE_MAP.find? (fun e => e.1 = windforce)).map (fun e => e.2)

/-- entity.py get_air_pressure_description: first row with
`lo <= int(air_pressure) <= hi` (both bounds inclusive), else None. -/
def get_air_pressure_description (air_pressure : PyFloat) : Option String :=
  let p := pyTrunc air_pressure
  (AIR_PRESSURE_MAP.find? (fun e => decide (e.1 ≤ p) && decide (p ≤ e.2.1))).map
    (fun e => e.2.2.1)

/-- entity.py get_air_pressure_barometer: like the description lookup but
returning the barometer word. -/
def get_air_pressure_barometer (air_pressure : PyFloat) : Option String :=
  let p := pyTrunc air_pressure
  (AIR_PRESSURE_MAP.find? (fun e => decide (e.1 ≤ p) && decide (p ≤ e.2.1))).map
    (fun e => e.2.2.2)

/-- entity.py get_humidity_description: first row with
`lo <= humidity < hi` (half-open), else None. -/
def get_humidity_description (humidity : Int) : Option String :=
  (HUMIDITY_MAP.find? (fun e => decide (e.1 ≤ humidity) && decide (humidity < e.2.1))).map
    (fun e => e.2.2)

/-- entity.py get_visibility_description: first row with
`lo <= visibility < hi` (half-open), else None. -/
def get_visibility_description (visibility : Int) : Option String :=
  (VISIBILITY_MAP.find? (fun e => decide (e.1 ≤ visibility) && decide (visibility < e.2.1))).map
    (fun e => e.2.2)

/-! ## sensor.py — wind_direction_icon -/

/-- Python `min(xs, key=f)` over a non-empty list: first minimum wins. -/
def pyMinBy (f : Int → Nat) (x0 : Int) (xs : List Int) : Int :=
  xs.foldl (fun best x => if f x < f best then x else best) x0

/-- sensor.py wind_direction_icon: nearest of the 8 principal directions
(ties to the earlier key); if farther than 22.5 degrees, round `dir/45`
to the nearest multiple of 45; unknown angles fall back to
"compass-outline". -/
def wind_direction_icon (wind_direction_degrees : Int) : String :=
  let direction := wind_direction_degrees % 360
  let closest :=
    match WIND_DIRECTIONS_ICON_MAP.map (fun e => e.1) with
    | [] => 0
    | k :: ks => pyMinBy (fun a => (direction - a).natAbs) k ks
  let closest :=
    if pfLt (pfMk 45 2) (pfOfInt ((direction - closest).natAbs : Int)) then
      pyRound (pfMk direction 45) * 45
    else closest
  let icon :=
    ((WIND_DIRECTIONS_ICON_MAP.find? (fun e => e.1 = closest)).map
      (fun e => e.2)).getD "compass-outline"
  "mdi:" ++ icon

/-! ## coordinator.py — get_value -/

/-- The three conversion callables the repository passes to get_value. -/
inductive Conv
  | toStr
  | toFloat
  | toInt
deriving DecidableEq, Repr

/-- A value a conversion callable can return. -/
inductive PyVal
  | str (s : String)
  | int (n : Int)
  | float (q : PyFloat)
deriving DecidableEq, Repr

/-- The error classes a conversion step can raise. -/
inductive PyErr
  | valueError
  | typeError
deriving DecidableEq, Repr

/-- Python `str(q)` for a float; exact for integral values (the only
floats the midpoint rule produces that the repository ever stringifies);
the non-integral rendering is approximated by a plain fraction. -/
def pyFloatStr (q : PyFloat) : String :=
  if q.den = 1 then toString q.num ++ ".0"
  else toString q.num ++ "/" ++ toString q.den

/-- A conversion callable applied to a string value. -/
def convStr : Conv → String → Except PyErr PyVal
  | .toStr, s => .ok (.str s)
  | .toFloat, s =>
    match pyFloat? s with
    | some q => .ok (.float q)
    | none => .error .valueError
  | .toInt, s =>
    match pyInt? s with
    | some n => .ok (.int n)
    | none => .error .valueError

/-- A conversion callable applied to the Python float midpoint. -/
def convFloat : Conv → PyFloat → PyVal
  | .toStr, q => .str (pyFloatStr q)
  | .toFloat, q => .float q
  | .toInt, q => .int (pyTrunc q)

/-- `numerator, denominator = map(int, value.split('/'))` followed by
`(numerator + denominator) / 2`; wrong part counts and non-digit parts
raise ValueError. -/
def slashMidpoint (v : String) : Except PyErr PyFloat :=
  match splitOnChar '/' v.toList with
  | [a, b] =>
    match pyIntChars? a, pyIntChars? b with
    | some x, some y => .ok (pfMk (x + y) 2)
    | _, _ => .error .valueError
  | _ => .error .valueError

/-- coordinator.py get_value: looks the key up in the stored data;
applies the slash-midpoint rule when the key contains one of the four
d1/d2 min/max markers and the value contains "/"; converts; a ValueError
anywhere in the try block yields None with a warning; an absent key
yields None with a warning. -/
def get_value (data : List (String × String)) (key : String) (conv : Conv) :
    Except PyErr (Option PyVal) :=
  match lookupAssoc data key with
  | some v =>
    let body : Except PyErr PyVal :=
      if (substrOf "d1tmin" key || substrOf "d1tmax" key
            || substrOf "d2tmin" key || substrOf "d2tmax" key)
          && substrOf "/" v then
        match slashMidpoint v with
        | .ok q => .ok (convFloat conv q)
        | .error e => .error e
      else convStr conv v
    match body with
    | .ok val => .ok (some val)
    | .error .valueError => .ok none
    | .error e => .error e
  | none => .ok none

/-! ## api.py — notification handling and the request wrapper -/

/-- The slot `hass.data["persistent_notification"]` as notification_exists
sees it: absent (the `.get` default `\x7b\x7d` applies), present but not a
dict, or a dict whose keys are the live notification ids. -/
inductive NotifStore
  | missing
  | notDict
  | dict (ids : List String)
deriving DecidableEq, Repr

/-- api.py notification_exists: False unless the store is a dict holding
the client's notification_id as a key (a None id is never a key). -/
def notification_exists (nid : Option String) (store : NotifStore) : Bool :=
  match store with
  | .missing => false
  | .notDict => false
  | .dict ids =>
    match nid with
    | none => false
    | some i => ids.contains i

/-- The KnmiApiClient notification state: its notification_id and the
live persistent-notification ids in hass.data. -/
structure ApiState where
  notification_id : Option String
  notifStore : List String
deriving DecidableEq, Repr

/-- How one HTTP round trip classifies, mirroring the order of checks in
_api_wrapper and _handle_error_responses: the body-marker tests run
before JSON parsing, so a marker constructor subsumes whatever the body
otherwise held. -/
inductive HttpOutcome
  /-- 200 JSON body whose "liveweer" list has a truthy first element. -/
  | live (payload : List (String × String))
  /-- "liveweer" present but its first element is falsy. -/
  | liveEmpty
  /-- JSON parsed but not a dict containing "liveweer". -/
  | noLive
  /-- body holds the invalid-api-key marker. -/
  | invalidKeyBody
  /-- body holds the daily-quota marker. -/
  | quotaBody
  /-- body holds the server-problem marker. -/
  | serverProblemBody
  /-- wrong content type, non-200 status, or JSON decode failure. -/
  | malformed
  /-- asyncio.TimeoutError during the request. -/
  | timeoutErr
  /-- aiohttp.ClientError or socket.gaierror. -/
  | transportErr
deriving DecidableEq, Repr

/-- Exceptions that escape _api_wrapper.  InvalidApiKeyError and ApiError
are siblings of KnmiApiException in exceptions.py, so they pass its
except clauses unhandled; RequestsExceededError and KnmiApiException are
caught, logged and re-raised. -/
inductive ApiExc
  | invalidApiKey
  | requestsExceeded
  | apiError
  | knmiApi
deriving DecidableEq, Repr

/-- api.py _api_wrapper for one round trip with outcome `out`; `fresh` is
the uuid drawn if a quota notice must be created.  Timeouts and
transport errors are logged and swallowed, so the wrapper falls off the
end and returns None.  A successful liveweer extraction dismisses an
existing quota notice and clears notification_id. -/
def apiWrapper (out : HttpOutcome) (s : ApiState) (fresh : String) :
    Except ApiExc (Option (List (String × String))) × ApiState :=
  match out with
  | .live p =>
    match s.notification_id with
    | some nid =>
      if notification_exists (some nid) (.dict s.notifStore) then
        (.ok (some p), ⟨none, s.notifStore.erase nid⟩)
      else (.ok (some p), s)
    | none => (.ok (some p), s)
  | .liveEmpty => (.error .apiError, s)
  | .noLive => (.error .apiError, s)
  | .invalidKeyBody => (.error .invalidApiKey, s)
  | .quotaBody =>
    if notification_exists s.notification_id (.dict s.notifStore) then
      (.error .requestsExceeded, s)
    else (.error .requestsExceeded, ⟨some fresh, fresh :: s.notifStore⟩)
  | .serverProblemBody => (.error .knmiApi, s)
  | .malformed => (.error .apiError, s)
  | .timeoutErr => (.ok none, s)
  | .transportErr => (.ok none, s)

/-! ## coordinator.py — refresh state machine -/

/-- The WeatherData dataclass field names, in model.py order.
`WeatherData(**data)` succeeds exactly when the payload's keys are these
fields (a dict has no duplicate keys). -/
def weatherDataFields : List String :=
  ["plaats", "timestamp", "time", "temp", "gtemp", "samenv", "lv",
   "windr", "windrgr", "windms", "winds", "windk", "windkmh", "luchtd",
   "ldmmhg", "dauwp", "zicht", "verw", "sup", "sunder", "image",
   "d0weer", "d0tmax", "d0tmin", "d0windk", "d0windknp", "d0windms",
   "d0windkmh", "d0windr", "d0windrgr", "d0neerslag", "d0zon",
   "d1weer", "d1tmax", "d1tmin", "d1windk", "d1windknp", "d1windms",
   "d1windkmh", "d1windr", "d1windrgr", "d1neerslag", "d1zon",
   "d2weer", "d2tmax", "d2tmin", "d2windk", "d2windknp", "d2windms",
   "d2windkmh", "d2windr", "d2windrgr", "d2neerslag", "d2zon",
   "alarm", "alarmtxt"]

/-- Whether `WeatherData(**p)` constructs without a TypeError: every
dataclass field is supplied and no unexpected keyword remains. -/
def weatherDataOk (p : List (String × String)) : Bool :=
  weatherDataFields.all (fun f => (lookupAssoc p f).isSome)
    && p.all (fun e => weatherDataFields.contains e.1)

/-- The KnmiDataUpdateCoordinator state the claims touch. -/
structure CoordState where
  /-- coordinator.data, the stored snapshot dict. -/
  data : Option (List (String × String))
  /-- last_update_time as epoch seconds. -/
  last_update_time : Option Int
  /-- self._timestamp, the last parsed integer timestamp. -/
  tsField : Option Int
  /-- the refresh_interval attribute in seconds. -/
  refresh_interval : Int
  /-- the api client's notification state. -/
  apiState : ApiState
deriving DecidableEq, Repr

/-- coordinator.py _is_update_interval_passed: True when
last_update_time is unset or `now >= last_update_time + 600s` (the 600
is hardcoded, independent of refresh_interval). -/
def is_update_interval_passed (last : Option Int) (now : Int) : Bool :=
  match last with
  | none => true
  | some t => now ≥ t + 600

/-- coordinator.py _update_timestamp: parse the snapshot's timestamp
field as an int; on success set both _timestamp and last_update_time
from it; on ValueError warn, fall back to the current time and clear
_timestamp. -/
def update_timestamp (st : CoordState) (p : List (String × String)) (now : Int) :
    CoordState :=
  match lookupAssoc p "timestamp" with
  | none => st
  | some ts =>
    match pyInt? ts with
    | some n => { st with tsField := some n, last_update_time := some n }
    | none => { st with last_update_time := some now, tsField := none }

instance {ε α : Type} [DecidableEq ε] [DecidableEq α] :
    DecidableEq (Except ε α) := fun a b =>
  match a, b with
  | .ok x, .ok y =>
    if h : x = y then isTrue (by rw [h])
    else isFalse (fun heq => h (Except.ok.inj heq))
  | .error x, .error y =>
    if h : x = y then isTrue (by rw [h])
    else isFalse (fun heq => h (Except.error.inj heq))
  | .ok _, .error _ => isFalse (fun heq => Except.noConfusion heq)
  | .error _, .ok _ => isFalse (fun heq => Except.noConfusion heq)

/-- One _async_update_data cycle: the resulting state, what the call
returns (`Except.error` is the raised UpdateFailed), and whether the
remote fetch was performed. -/
structure StepResult where
  state : CoordState
  result : Except Unit (Option (List (String × String)))
  fetched : Bool
deriving DecidableEq, Repr

/-- coordinator.py _async_update_data: when last_update_time is unset or
the 600s gate has passed, fetch through the api wrapper; any exception
there, a None result (WeatherData(**None) raises TypeError), or a
payload that does not construct the dataclass is caught by the broad
except and re-raised as UpdateFailed; on success the snapshot is stored,
the timestamp processed and the payload returned.  Otherwise the
existing data is returned with no fetch. -/
def async_update_data (st : CoordState) (now : Int) (out : HttpOutcome)
    (fresh : String) : StepResult :=
  if st.last_update_time.isNone || is_update_interval_passed st.last_update_time now then
    match apiWrapper out st.apiState fresh with
    | (.ok (some p), a) =>
      if weatherDataOk p then
        let st1 := { st with data := some p, apiState := a }
        ⟨update_timestamp st1 p now, .ok (some p), true⟩
      else ⟨{ st with apiState := a }, .error (), true⟩
    | (.ok none, a) => ⟨{ st with apiState := a }, .error (), true⟩
    | (.error _, a) => ⟨{ st with apiState := a }, .error (), true⟩
  else ⟨st, .ok st.data, false⟩

/-- coordinator.py _schedule_next_update: with last_update_time set,
compute `next = last_update_time + refresh_interval`; only when that
instant is still in the future arm a one-shot timer for
`(next - now) + jitter` seconds, where jitter is random.randint(1, 60).
The returned value is the armed delay, none when no timer is armed. -/
def schedule_next_update (last : Option Int) (refresh_interval : Int)
    (now : Int) (jitter : Int) : Option Int :=
  match last with
  | none => none
  | some t =>
    let next := t + refresh_interval
    if next > now then some ((next - now) + jitter) else none

/-! ## __init__.py and coordinator.py — refresh interval resolution -/

/-- coordinator.py _get_refresh_interval.  `entryOptionsRI` is the
"refresh_interval" entry of config_entry.options (checked first, and
identically re-checked later); `selfOptions` is the class attribute
`options`, which the repository never assigns, so it stays None.  The
hass.data fallback on line 68 is computed and logged but never returned;
the function falls through to DATA_REFRESH_INTERVAL (600). -/
def get_refresh_interval (entryOptionsRI : Option Int) (selfOptions : Option Int) :
    Int :=
  match entryOptionsRI with
  | some v => v
  | none =>
    match selfOptions with
    | some v => v
    | none => DATA_REFRESH_INTERVAL

/-- __init__.py async_setup_entry, refresh-interval effect: the
coordinator constructor stores `get_refresh_interval`, then setup reads
`entry.options.get("refresh_interval", 300)` and, when truthy,
overwrites the coordinator's refresh_interval with it. -/
def setup_refresh_interval (entryOptionsRI : Option Int) : Int :=
  let ctor := get_refresh_interval entryOptionsRI none
  let ri := entryOptionsRI.getD 300
  if ri ≠ 0 then ri else ctor

/-! ## Sample data (the testdata payload embedded in entity.py) -/

/-- The single liveweer record of the testdata payload in entity.py. -/
def samplePayload : List (String × String) :=
  [("plaats", "Schagen"),
   ("timestamp", "1689469384"),
   ("time", "16-07-2023 03:03"),
   ("temp", "18.1"),
   ("gtemp", "15.5"),
   ("samenv", "Zwaar bewolkt"),
   ("lv", "69"),
   ("windr", "ZW"),
   ("windrgr", "225"),
   ("windms", "13"),
   ("winds", "6"),
   ("windk", "25.3"),
   ("windkmh", "46.8"),
   ("luchtd", "1004.7"),
   ("ldmmhg", "754"),
   ("dauwp", "12"),
   ("zicht", "20"),
   ("verw", "Vandaag onstuimig, maandag enkele buien"),
   ("sup", "05:33"),
   ("sunder", "22:00"),
   ("image", "nachtbewolkt"),
   ("d0weer", "halfbewolkt"),
   ("d0tmax", "19"),
   ("d0tmin", "17"),
   ("d0windk", "6"),
   ("d0windknp", "25"),
   ("d0windms", "13"),
   ("d0windkmh", "46"),
   ("d0windr", "ZW"),
   ("d0windrgr", "225"),
   ("d0neerslag", "33"),
   ("d0zon", "57"),
   ("d1weer", "halfbewolkt"),
   ("d1tmax", "23"),
   ("d1tmin", "14"),
   ("d1windk", "3"),
   ("d1windknp", "8"),
   ("d1windms", "4"),
   ("d1windkmh", "15"),
   ("d1windr", "ZW"),
   ("d1windrgr", "225"),
   ("d1neerslag", "40"),
   ("d1zon", "40"),
   ("d2weer", "halfbewolkt"),
   ("d2tmax", "22"),
   ("d2tmin", "14"),
   ("d2windk", "3"),
   ("d2windknp", "8"),
   ("d2windms", "4"),
   ("d2windkmh", "15"),
   ("d2windr", "ZW"),
   ("d2windrgr", "225"),
   ("d2neerslag", "30"),
   ("d2zon", "40"),
   ("alarm", "1"),
   ("alarmtxt", "Aanvankelijk zijn er geen waarschuwingen van kracht.  In de nacht naar zondag en zondagochtend is er aan zee en in het Waddengebied kans op zware windstoten van 75-90 km/u, met mogelijk hinder voor verkeer en buitenactiviteiten.  De wind waait uit het zuidwesten en neemt in de tweede helft van zondagochtend weer iets af.")]

/-- A coordinator state holding a previously fetched snapshot whose
timestamp matches the sample payload. -/
def sampleState : CoordState :=
  { data := some samplePayload
    last_update_time := some 1689469384
    tsField := some 1689469384
    refresh_interval := 300
    apiState := ⟨none, []⟩ }

/-- An initial coordinator state: nothing fetched yet. -/
def initialState : CoordState :=
  { data := none
    last_update_time := none
    tsField := none
    refresh_interval := 300
    apiState := ⟨none, []⟩ }

/-! ## Helper lemmas -/

/-- A conversion of a string value either succeeds or raises ValueError,
never any other error class. -/
theorem convStr_cases (c : Conv) (v : String) :
    (∃ x, convStr c v = .ok x) ∨ convStr c v = .error .valueError := by
  cases c
  · exact Or.inl ⟨.str v, rfl⟩
  · cases hpf : pyFloat? v with
    | none => exact Or.inr (by simp [convStr, hpf])
    | some q => exact Or.inl ⟨.float q, by simp [convStr, hpf]⟩
  · cases hpi : pyInt? v with
    | none => exact Or.inr (by simp [convStr, hpi])
    | some n => exact Or.inl ⟨.int n, by simp [convStr, hpi]⟩

/-- The midpoint computation either succeeds or raises ValueError. -/
theorem slashMidpoint_cases (v : String) :
    (∃ q, slashMidpoint v = .ok q) ∨ slashMidpoint v = .error .valueError := by
  unfold slashMidpoint
  rcases hs : splitOnChar '/' v.toList with _ | ⟨a, _ | ⟨b, _ | ⟨c, t⟩⟩⟩
  · exact Or.inr rfl
  · exact Or.inr rfl
  · cases hpa : pyIntChars? a with
    | none => exact Or.inr (by simp [hpa])
    | some x =>
      cases hpb : pyIntChars? b with
      | none => exact Or.inr (by simp [hpa, hpb])
      | some y => exact Or.inl ⟨pfMk (x + y) 2, by simp [hpa, hpb]⟩
  · exact Or.inr rfl

/-- What _update_timestamp leaves in last_update_time, given the looked
up timestamp string. -/
theorem update_timestamp_last (st : CoordState) (p : List (String × String))
    (now : Int) (ts : String) (hts : lookupAssoc p "timestamp" = some ts) :
    (update_timestamp st p now).last_update_time =
      (match pyInt? ts with
       | some n => some n
       | none => some now) := by
  unfold update_timestamp
  rw [hts]
  show (match pyInt? ts with
        | some n => { st with tsField := some n, last_update_time := some n }
        | none =>
          { st with last_update_time := some now, tsField := none }).last_update_time = _
  cases pyInt? ts <;> rfl

/-- A constructible payload always supplies the timestamp field. -/
theorem weatherDataOk_timestamp (p : List (String × String))
    (h : weatherDataOk p = true) : ∃ ts, lookupAssoc p "timestamp" = some ts := by
  unfold weatherDataOk at h
  rw [Bool.and_eq_true, List.all_eq_true] at h
  have h2 := h.1 "timestamp" (by decide)
  cases hl : lookupAssoc p "timestamp"
  · rw [hl] at h2; simp at h2
  · exact ⟨_, rfl⟩

/-- The fetch gate of _async_update_data, as a proposition. -/
theorem gate_iff (st : CoordState) (now : Int) :
    (st.last_update_time.isNone
        || is_update_interval_passed st.last_update_time now) = true ↔
      (st.last_update_time = none ∨
        ∃ t, st.last_update_time = some t ∧ now ≥ t + 600) := by
  cases h : st.last_update_time with
  | none => simp [h, is_update_interval_passed]
  | some t => simp [h, is_update_interval_passed]

/-- A closed gate skips the fetch and returns the stored data. -/
theorem async_step_skip (st : CoordState) (now : Int) (out : HttpOutcome)
    (fresh : String)
    (hgate : (st.last_update_time.isNone
      || is_update_interval_passed st.last_update_time now) = false) :
    async_update_data st now out fresh = ⟨st, .ok st.data, false⟩ := by
  unfold async_update_data
  rw [hgate]
  rfl

/-- An open gate with a constructible payload stores it and processes
the timestamp. -/
theorem async_step_ok_some (st : CoordState) (now : Int) (out : HttpOutcome)
    (fresh : String) (p : List (String × String)) (a : ApiState)
    (hgate : (st.last_update_time.isNone
      || is_update_interval_passed st.last_update_time now) = true)
    (hw : apiWrapper out st.apiState fresh = (.ok (some p), a))
    (hWD : weatherDataOk p = true) :
    async_update_data st now out fresh =
      ⟨update_timestamp { st with data := some p, apiState := a } p now,
        .ok (some p), true⟩ := by
  unfold async_update_data
  rw [hw, hgate]
  simp [hWD]

/-- An open gate with a payload that does not construct the dataclass
raises UpdateFailed. -/
theorem async_step_ok_some_bad (st : CoordState) (now : Int)
    (out : HttpOutcome) (fresh : String) (p : List (String × String))
    (a : ApiState)
    (hgate : (st.last_update_time.isNone
      || is_update_interval_passed st.last_update_time now) = true)
    (hw : apiWrapper out st.apiState fresh = (.ok (some p), a))
    (hWD : weatherDataOk p = false) :
    async_update_data st now out fresh =
      ⟨{ st with apiState := a }, .error (), true⟩ := by
  unfold async_update_data
  rw [hw, hgate]
  simp [hWD]

/-- An open gate with a swallowed failure (wrapper returned None) raises
UpdateFailed from the WeatherData construction. -/
theorem async_step_ok_none (st : CoordState) (now : Int) (out : HttpOutcome)
    (fresh : String) (a : ApiState)
    (hgate : (st.last_update_time.isNone
      || is_update_interval_passed st.last_update_time now) = true)
    (hw : apiWrapper out st.apiState fresh = (.ok none, a)) :
    async_update_data st now out fresh =
      ⟨{ st with apiState := a }, .error (), true⟩ := by
  unfold async_update_data
  rw [hw, hgate]
  rfl

/-- An open gate with a raised api exception surfaces UpdateFailed. -/
theorem async_step_error (st : CoordState) (now : Int) (out : HttpOutcome)
    (fresh : String) (e : ApiExc) (a : ApiState)
    (hgate : (st.last_update_time.isNone
      || is_update_interval_passed st.last_update_time now) = true)
    (hw : apiWrapper out st.apiState fresh = (.error e, a)) :
    async_update_data st now out fresh =
      ⟨{ st with apiState := a }, .error (), true⟩ := by
  unfold async_update_data
  rw [hw, hgate]
  rfl

/-- The fetch happens exactly when the gate is open. -/
theorem fetched_eq_gate (st : CoordState) (now : Int) (out : HttpOutcome)
    (fresh : String) :
    (async_update_data st now out fresh).fetched =
      (st.last_update_time.isNone
        || is_update_interval_passed st.last_update_time now) := by
  unfold async_update_data
  split
  next hcond =>
    split
    · split <;> simp_all
    · simp_all
    · simp_all
  next hcond =>
    rw [Bool.not_eq_true] at hcond
    exact hcond.symm

/-! ## Claims -/

/-- Claim C1: a refresh request with last_update_time set and fewer than
600 seconds elapsed performs no fetch and returns the stored snapshot
unchanged; the fetch is attempted exactly when last_update_time is unset
or at least 600 seconds have elapsed since it. -/
theorem freshness_gate (st : CoordState) (now : Int) (out : HttpOutcome)
    (fresh : String) :
    ((async_update_data st now out fresh).fetched = true ↔
      (st.last_update_time = none ∨
        ∃ t, st.last_update_time = some t ∧ now ≥ t + 600)) ∧
    (∀ t, st.last_update_time = some t → now < t + 600 →
      async_update_data st now out fresh = ⟨st, .ok st.data, false⟩) := by
  constructor
  · rw [fetched_eq_gate st now out fresh]
    exact gate_iff st now
  · intro t ht hlt
    have hcond : (st.last_update_time.isNone
        || is_update_interval_passed st.last_update_time now) = false := by
      simp [ht, is_update_interval_passed]
      omega
    unfold async_update_data
    rw [hcond]
    rfl

/-- Claim C1 witness: a refresh 16 seconds after the stored timestamp is
skipped and hands back the stored snapshot. -/
theorem freshness_gate_witness :
    async_update_data sampleState 1689469400 .quotaBody "u"
      = ⟨sampleState, .ok sampleState.data, false⟩ :=
  (freshness_gate sampleState 1689469400 .quotaBody "u").2 1689469384
    rfl (by decide)

/-- Claim C2: get_value never raises to the caller — an absent key gives
None (with a warning), a failed conversion gives None (with a warning),
and for the range-valued forecast temperature keys a value "lo/hi" is
replaced by the midpoint before conversion, so "17/19" converts to 18.0. -/
theorem get_value_no_raise :
    (∀ data key conv, ∃ r, get_value data key conv = Except.ok r) ∧
    (∀ data key conv, lookupAssoc data key = none →
      get_value data key conv = Except.ok none) ∧
    get_value [("d1tmin", "17/19")] "d1tmin" Conv.toFloat
      = Except.ok (some (PyVal.float (pfOfInt 18))) ∧
    get_value [("temp", "abc")] "temp" Conv.toFloat = Except.ok none := by
  refine ⟨?_, ?_, by decide, by decide⟩
  · intro data key conv
    unfold get_value
    cases hl : lookupAssoc data key
    · exact ⟨none, rfl⟩
    case some v =>
      by_cases hcond : ((substrOf "d1tmin" key || substrOf "d1tmax" key
          || substrOf "d2tmin" key || substrOf "d2tmax" key)
          && substrOf "/" v) = true
      · simp only [hcond, if_true]
        rcases slashMidpoint_cases v with ⟨q, hq⟩ | hq
        · exact ⟨some (convFloat conv q), by simp [hq]⟩
        · exact ⟨none, by simp [hq]⟩
      · simp only [Bool.not_eq_true] at hcond
        simp only [hcond, Bool.false_eq_true, if_false]
        rcases convStr_cases conv v with ⟨x, hx⟩ | hx
        · exact ⟨some x, by simp [hx]⟩
        · exact ⟨none, by simp [hx]⟩
  · intro data key conv h
    unfold get_value
    rw [h]

/-- Claim C2 witness: a key absent from the snapshot yields None. -/
theorem get_value_no_raise_witness :
    get_value [("a", "1")] "b" Conv.toInt = Except.ok none :=
  get_value_no_raise.2.1 [("a", "1")] "b" Conv.toInt (by decide)

set_option maxRecDepth 8000 in
/-- Claim C3 counterexample: with a stored snapshot and the freshness
gate open, a timed-out cycle makes _async_update_data raise UpdateFailed
— the failure IS surfaced to the update framework as a failed refresh,
refuting "not surfaced to readers as an error" — though the stored
snapshot is retained. -/
theorem timeout_surfaced_counterexample :
    (async_update_data sampleState 1689470000 .timeoutErr "u").result
      = .error () ∧
    (async_update_data sampleState 1689470000 .timeoutErr "u").state
      = sampleState := by decide

/-- Claim C3 (amended): on a timeout or transport-level failure the API
client logs and swallows the exception, returning no data; the
coordinator then fails to build WeatherData from None and raises
UpdateFailed, surfacing a failed cycle to the update framework, while
the whole coordinator state (stored snapshot, last_update_time,
notification state) is retained unchanged; a gate-closed cycle instead
returns the stored snapshot without error. -/
theorem timeout_retains_state (st : CoordState) (now : Int)
    (out : HttpOutcome) (fresh : String)
    (hout : out = .timeoutErr ∨ out = .transportErr) :
    ((async_update_data st now out fresh).fetched = true →
      (async_update_data st now out fresh).result = .error ()) ∧
    ((async_update_data st now out fresh).fetched = false →
      (async_update_data st now out fresh).result = .ok st.data) ∧
    (async_update_data st now out fresh).state = st := by
  have hw : apiWrapper out st.apiState fresh = (.ok none, st.apiState) := by
    rcases hout with h | h <;> subst h <;> rfl
  unfold async_update_data
  rw [hw]
  split
  · exact ⟨fun _ => rfl, fun h => by simp at h, rfl⟩
  · exact ⟨fun h => by simp at h, fun _ => rfl, rfl⟩

/-- Claim C3 witness: the coordinator state survives a timeout cycle. -/
theorem timeout_retains_state_witness :
    (async_update_data sampleState 1689470000 .timeoutErr "v").state
      = sampleState :=
  (timeout_retains_state sampleState 1689470000 .timeoutErr "v"
    (Or.inl rfl)).2.2

/-- Claim C4 counterexample: with no configured refresh interval, the
effective value after setup is 300, not the claimed 600. -/
theorem refresh_interval_counterexample :
    setup_refresh_interval none = 300 ∧ ¬ (300 : Int) = 600 := by decide

/-- Claim C4 (amended): with no "refresh_interval" option the coordinator
constructor defaults to DATA_REFRESH_INTERVAL = 600, but async_setup_entry
then overwrites the attribute with entry.options.get("refresh_interval",
300) = 300, so the effective refresh_interval after setup is 300. -/
theorem refresh_interval_default :
    get_refresh_interval none none = DATA_REFRESH_INTERVAL ∧
    DATA_REFRESH_INTERVAL = 600 ∧
    setup_refresh_interval none = 300 ∧
    (∀ v : Int, ¬ v = 0 → setup_refresh_interval (some v) = v) := by
  refine ⟨rfl, rfl, rfl, ?_⟩
  intro v hv
  simp [setup_refresh_interval, hv]

/-- Claim C4 witness: a configured nonzero interval survives setup. -/
theorem refresh_interval_default_witness :
    setup_refresh_interval (some 900) = 900 :=
  refresh_interval_default.2.2.2 900 (by decide)

/-- Claim C5: at most one quota notice is live at a time — a first
rate-limited response creates exactly one notice and records its id, a
second consecutive rate-limited response creates nothing new while the
notice is active, and the next successful fetch dismisses the notice
and clears the stored id. -/
theorem quota_notice_lifecycle (store0 : List String)
    (id1 id2 fresh3 : String) (p : List (String × String))
    (h1 : id1 ∉ store0) :
    apiWrapper .quotaBody ⟨none, store0⟩ id1
      = (.error .requestsExceeded, ⟨some id1, id1 :: store0⟩) ∧
    (id1 :: store0).count id1 = 1 ∧
    apiWrapper .quotaBody ⟨some id1, id1 :: store0⟩ id2
      = (.error .requestsExceeded, ⟨some id1, id1 :: store0⟩) ∧
    apiWrapper (.live p) ⟨some id1, id1 :: store0⟩ fresh3
      = (.ok (some p), ⟨none, store0⟩) := by
  refine ⟨rfl, ?_, ?_, ?_⟩
  · rw [List.count_cons_self, List.count_eq_zero.mpr h1]
  · simp [apiWrapper, notification_exists]
  · simp [apiWrapper, notification_exists]

/-- Claim C5 witness: create once, hold once, dismiss on success. -/
theorem quota_notice_lifecycle_witness :
    apiWrapper .quotaBody ⟨none, []⟩ "a"
      = (.error .requestsExceeded, ⟨some "a", "a" :: []⟩) ∧
    ("a" :: ([] : List String)).count "a" = 1 ∧
    apiWrapper .quotaBody ⟨some "a", "a" :: []⟩ "b"
      = (.error .requestsExceeded, ⟨some "a", "a" :: []⟩) ∧
    apiWrapper (.live []) ⟨some "a", "a" :: []⟩ "c"
      = (.ok (some []), ⟨none, []⟩) :=
  quota_notice_lifecycle [] "a" "b" "c" [] (by decide)

/-- Claim C6: after a successful fetch with last_update_time set, the
one-shot refresh timer is armed exactly when `last + refresh_interval`
is still in the future, with delay `(next - now) + jitter`; with jitter
in [1, 60] the timer fires strictly after `last + refresh_interval`. -/
theorem schedule_next_update_correct (t r now j : Int)
    (h1 : 1 ≤ j) (h2 : j ≤ 60) :
    (¬ schedule_next_update (some t) r now j = none ↔ t + r > now) ∧
    (∀ d, schedule_next_update (some t) r now j = some d →
      d = (t + r - now) + j ∧ now + d > t + r) := by
  constructor
  · unfold schedule_next_update
    by_cases h : t + r > now
    · simp [h]
    · simp [h]
  · intro d hd
    unfold schedule_next_update at hd
    by_cases h : t + r > now
    · simp only [h, if_true] at hd
      have := Option.some.inj hd
      omega
    · simp [h] at hd

/-- Claim C6 witness: a concrete armed timer. -/
theorem schedule_next_update_witness :
    (530 : Int) = (0 + 600 - 100) + 30 ∧ (100 : Int) + 530 > 0 + 600 :=
  (schedule_next_update_correct 0 600 100 30 (by decide) (by decide)).2
    530 (by decide)

/-- Claim C7 counterexample: the temperature description of -10 is
"Zeer koud" (the (-20, -10) band, scanned first, matches at its
inclusive upper bound), not "Erg koud". -/
theorem temperature_minus10_counterexample :
    get_temperature_description (pfOfInt (-10)) = some "Zeer koud" ∧
    ¬ get_temperature_description (pfOfInt (-10)) = some "Erg koud" := by
  decide

/-- Claim C7 (amended): range-table bounds are inclusive on both ends
for temperature and pressure and half-open for humidity and visibility;
-10 falls in the earlier "Zeer koud" band via its inclusive upper bound,
humidity 40 is "Comfortabel" (lower bound inclusive), humidity 60 is
"Hoog" and not "Comfortabel" (upper bound exclusive). -/
theorem range_lookup_boundaries :
    get_temperature_description (pfOfInt (-10)) = some "Zeer koud" ∧
    (∀ t : Int, -19 ≤ t → t ≤ -10 →
      get_temperature_description (pfOfInt t) = some "Zeer koud") ∧
    get_humidity_description 40 = some "Comfortabel" ∧
    get_humidity_description 60 = some "Hoog" ∧
    ¬ get_humidity_description 60 = some "Comfortabel" ∧
    get_air_pressure_description (pfOfInt 1010) = some "Matig laag" ∧
    get_visibility_description 10 = some "Zeer goed" := by
  refine ⟨by decide, ?_, by decide, by decide, by decide, by decide, by decide⟩
  intro t h1 h2
  interval_cases t <;> decide

/-- Claim C7 witness: an interior point of the "Zeer koud" band. -/
theorem range_lookup_boundaries_witness :
    get_temperature_description (pfOfInt (-15)) = some "Zeer koud" :=
  range_lookup_boundaries.2.1 (-15) (by decide) (by decide)

/-- Claim C8 counterexample: for luchtd = 1004.7 the pressure band is
"Matig laag" with barometer "Veranderlijk", not "Stabiel"/"Mooi weer". -/
theorem pressure_sample_counterexample :
    get_air_pressure_description (pfMk 10047 10) = some "Matig laag" ∧
    ¬ get_air_pressure_description (pfMk 10047 10) = some "Stabiel" ∧
    ¬ get_air_pressure_barometer (pfMk 10047 10) = some "Mooi weer" := by
  decide

/-- Claim C8 (amended): on the sample payload the resolvers return wind
icon "arrow-top-right-thick" for 225 degrees, temperature description
"Aangenaam" for 18.1, Beaufort benaming "Krachtig" for force 6, pressure
band "Matig laag" with barometer "Veranderlijk" for 1004.7 hPa, and
humidity label "Hoog" for 69 percent. -/
theorem sample_payload_resolvers :
    wind_direction_icon 225 = "mdi:arrow-top-right-thick" ∧
    get_temperature_description (pfMk 181 10) = some "Aangenaam" ∧
    (get_windforce_description 6).map (fun i => i.benaming) = some "Krachtig" ∧
    get_air_pressure_description (pfMk 10047 10) = some "Matig laag" ∧
    get_air_pressure_barometer (pfMk 10047 10) = some "Veranderlijk" ∧
    get_humidity_description 69 = some "Hoog" := by decide

/-- Claim C9: last_update_time changes only through a successful fetch:
a failed cycle and a skipped cycle leave it (and on failure the whole
state except the notification bookkeeping) unchanged, and a successful
fetch sets it from the snapshot's own timestamp field, falling back to
the current time when that field does not parse as an integer. -/
theorem last_update_advance (st : CoordState) (now : Int) (out : HttpOutcome)
    (fresh : String) :
    (∀ e : Unit, (async_update_data st now out fresh).result = .error e →
      (async_update_data st now out fresh).state.last_update_time
        = st.last_update_time) ∧
    ((async_update_data st now out fresh).fetched = false →
      (async_update_data st now out fresh).state = st) ∧
    (∀ p, (async_update_data st now out fresh).result = .ok (some p) →
      (async_update_data st now out fresh).fetched = true →
      ∃ ts, lookupAssoc p "timestamp" = some ts ∧
        (async_update_data st now out fresh).state.last_update_time
          = (match pyInt? ts with
             | some n => some n
             | none => some now)) := by
  by_cases hgate : (st.last_update_time.isNone
      || is_update_interval_passed st.last_update_time now) = true
  · rcases hw : apiWrapper out st.apiState fresh with ⟨r, a⟩
    rcases r with e | o
    · rw [async_step_error st now out fresh e a hgate hw]
      exact ⟨fun _ _ => rfl, fun hf => by simp at hf,
        fun p' hp' _ => by simp at hp'⟩
    · rcases o with _ | p
      · rw [async_step_ok_none st now out fresh a hgate hw]
        exact ⟨fun _ _ => rfl, fun hf => by simp at hf,
          fun p' hp' _ => by simp at hp'⟩
      · by_cases hWD : weatherDataOk p = true
        · rw [async_step_ok_some st now out fresh p a hgate hw hWD]
          refine ⟨fun e he => by simp at he, fun hf => by simp at hf, ?_⟩
          intro p' hp' _
          have hpp : p' = p := (Option.some.inj (Except.ok.inj hp')).symm
          rw [hpp]
          obtain ⟨ts, hts⟩ := weatherDataOk_timestamp p hWD
          exact ⟨ts, hts, update_timestamp_last _ p now ts hts⟩
        · rw [Bool.not_eq_true] at hWD
          rw [async_step_ok_some_bad st now out fresh p a hgate hw hWD]
          exact ⟨fun _ _ => rfl, fun hf => by simp at hf,
            fun p' hp' _ => by simp at hp'⟩
  · rw [Bool.not_eq_true] at hgate
    rw [async_step_skip st now out fresh hgate]
    exact ⟨fun e he => by simp at he, fun _ => rfl,
      fun p' hp' hf => by simp at hf⟩

set_option maxRecDepth 8000 in
/-- Claim C9 witness: a successful fetch of the sample payload parses its
timestamp field into last_update_time. -/
theorem last_update_advance_witness :
    ∃ ts, lookupAssoc samplePayload "timestamp" = some ts ∧
      (async_update_data initialState 5 (.live samplePayload) "u").state.last_update_time
        = (match pyInt? ts with
           | some n => some n
           | none => some (5 : Int)) :=
  (last_update_advance initialState 5 (.live samplePayload) "u").2.2
    samplePayload (by decide) (by decide)

/-- Claim C10: notification_exists is total — False whenever
notification_id is None, False when the persistent_notification slot is
missing or not a dict, and True exactly when the id is a key of the
dict. -/
theorem notification_exists_spec (store : NotifStore) (ids : List String)
    (s : String) :
    notification_exists none store = false ∧
    notification_exists (some s) NotifStore.missing = false ∧
    notification_exists (some s) NotifStore.notDict = false ∧
    (notification_exists (some s) (NotifStore.dict ids) = true ↔ s ∈ ids) := by
  refine ⟨?_, rfl, rfl, ?_⟩
  · cases store <;> rfl
  · simp [notification_exists]

/-- Claim C10 witness: a live id is found in the store. -/
theorem notification_exists_spec_witness :
    notification_exists (some "a") (NotifStore.dict ["a"]) = true :=
  (notification_exists_spec NotifStore.missing ["a"] "a").2.2.2.mpr
    (by decide)

end Knmi
